import Mathlib

/-!
Shallow embedding of `src/WA_Scraper/upscaler/backend/src/RenderVideo.py`:
the `Render` class — its `__init__` setup sequence (video probing, backend
fallback, stage construction order, thread starts) and its `render` method
(the pipeline coordinator loop).  The neural stages (interpolate, denoise,
compression-fix, upscale), scene detection and `resize_image_bytes` are
external collaborators of this module and enter the model as opaque
function parameters collected in `Stages`.  A stage invocation that raises
a processing exception is modelled as `Except.error ()`.
-/

/-- A raw frame buffer: the byte payload moved between the queues. -/
abbrev Frame := List Nat

/-- Backend family selector (`self.backend`): the source only ever
assigns and compares the literals `pytorch`, `ncnn`, `tensorrt`. -/
inductive Backend
  | pytorch
  | ncnn
  | tensorrt
deriving DecidableEq

/-! ## Setup geometry (RenderVideo.py lines 113-163)

`self.ceilInterpolateFactor = math.ceil(self.interpolateFactor)` and
`self.totalOutputFrames = int(self.totalInputFrames * self.ceilInterpolateFactor)`;
the product of two integers is an integer, on which Python's `int` is the
identity. -/

/-- The three derived fields of the video geometry computed once in
`Render.__init__` and never reassigned afterwards. -/
structure Geometry where
  totalInputFrames : Nat
  ceilInterpolateFactor : Int
  totalOutputFrames : Int
deriving DecidableEq

/-- Lines 117 and 158-161 of `Render.__init__`. -/
def setupGeometry (totalInputFrames : Nat) (interpolateFactor : ℚ) : Geometry :=
  ⟨totalInputFrames, ⌈interpolateFactor⌉, (totalInputFrames : Int) * ⌈interpolateFactor⌉⟩

/-! ## Setup sequence of `Render.__init__` (lines 143-296)

The observable actions of the constructor are recorded as an event trace:
probing the input, logging the invalid-input notice, the per-stage
downgrade warnings, stage construction / hot-unload / hot-reload, and the
four thread starts.  `raiseInvalidMedia` is the fatal failure the spec
describes for unreadable input; the constructor never emits it. -/

/-- The four inference stages of the chain. -/
inductive StageKind
  | upscale
  | denoise
  | compressionFix
  | interpolate
deriving DecidableEq

/-- The four threads started at the end of `Render.__init__`
(lines 293-296). -/
inductive ThreadKind
  | sharedMemory
  | ffmpegRead
  | ffmpegWrite
  | render
deriving DecidableEq

/-- Observable setup events of `Render.__init__`. -/
inductive InitEv
  | probe
  | logInvalid
  | raiseInvalidMedia
  | warnUnsupported (s : StageKind)
  | construct (s : StageKind) (b : Backend)
  | unload (s : StageKind)
  | reload (s : StageKind)
  | startThread (t : ThreadKind)
deriving DecidableEq

/-- The constructor arguments that drive the setup control flow: the
selected backend family, which of the four stage models are configured,
and the `is_valid_video` flag reported by the probe. -/
structure InitCfg where
  backend : Backend
  upscaleModel : Bool
  denoiseModel : Bool
  compressionFixModel : Bool
  interpolateModel : Bool
  is_valid_video : Bool
deriving DecidableEq

/-- Event trace of `Render.__init__` (lines 143-296) together with the
final value of `self.backend`.  Transcription notes:
line 145 only logs when the probe reports an invalid video; lines 190-195
and 199-204 print a warning and reassign `self.backend` to `pytorch`
before constructing the denoise / compression-fix stage; lines 181-218
construct and hot-unload upscale, then denoise, then compression-fix,
construct interpolate (left loaded), and hot-reload upscale, denoise,
compression-fix; lines 293-296 start the four threads. -/
def renderInitEvents (c : InitCfg) : List InitEv × Backend :=
  let evProbe := InitEv.probe :: (if c.is_valid_video then [] else [InitEv.logInvalid])
  let b0 := c.backend
  let evUp :=
    if c.upscaleModel then
      [InitEv.construct StageKind.upscale b0, InitEv.unload StageKind.upscale]
    else []
  let pDen : Backend × List InitEv :=
    if c.denoiseModel then
      if b0 = Backend.tensorrt then
        (Backend.pytorch,
          [InitEv.warnUnsupported StageKind.denoise,
           InitEv.construct StageKind.denoise Backend.pytorch,
           InitEv.unload StageKind.denoise])
      else
        (b0, [InitEv.construct StageKind.denoise b0, InitEv.unload StageKind.denoise])
    else (b0, [])
  let b1 := pDen.1
  let pCf : Backend × List InitEv :=
    if c.compressionFixModel then
      if b1 = Backend.tensorrt then
        (Backend.pytorch,
          [InitEv.warnUnsupported StageKind.compressionFix,
           InitEv.construct StageKind.compressionFix Backend.pytorch,
           InitEv.unload StageKind.compressionFix])
      else
        (b1, [InitEv.construct StageKind.compressionFix b1, InitEv.unload StageKind.compressionFix])
    else (b1, [])
  let b2 := pCf.1
  let evInt := if c.interpolateModel then [InitEv.construct StageKind.interpolate b2] else []
  let evReload :=
    (if c.upscaleModel then [InitEv.reload StageKind.upscale] else []) ++
    (if c.denoiseModel then [InitEv.reload StageKind.denoise] else []) ++
    (if c.compressionFixModel then [InitEv.reload StageKind.compressionFix] else [])
  let evThreads :=
    [InitEv.startThread ThreadKind.sharedMemory, InitEv.startThread ThreadKind.ffmpegRead,
     InitEv.startThread ThreadKind.ffmpegWrite, InitEv.startThread ThreadKind.render]
  (evProbe ++ evUp ++ pDen.2 ++ pCf.2 ++ evInt ++ evReload ++ evThreads, b2)

/-- Backend family a stage was constructed with, read off the event
trace (the stage is constructed at most once). -/
def constructedWith (evs : List InitEv) (s : StageKind) : Option Backend :=
  (evs.filterMap fun e =>
    match e with
    | InitEv.construct s2 b => if s2 = s then Option.some b else Option.none
    | _ => Option.none).head?

/-- Number of downgrade warnings in a setup trace. -/
def warnCount (evs : List InitEv) : Nat :=
  (evs.filter fun e =>
    match e with
    | InitEv.warnUnsupported _ => true
    | _ => false).length

/-- Stage lifecycle actions, with warnings and backend tags erased. -/
inductive LifeEv
  | construct (s : StageKind)
  | unload (s : StageKind)
  | reload (s : StageKind)
deriving DecidableEq

/-- Projection of a setup trace onto the stage lifecycle actions. -/
def lifecycleOf (evs : List InitEv) : List LifeEv :=
  evs.filterMap fun e =>
    match e with
    | InitEv.construct s _ => Option.some (LifeEv.construct s)
    | InitEv.unload s => Option.some (LifeEv.unload s)
    | InitEv.reload s => Option.some (LifeEv.reload s)
    | _ => Option.none

/-! ## The coordinator loop `Render.render` (lines 312-395)

Per iteration the loop reads the pause flag; when paused it sleeps and
re-checks, otherwise it dequeues one item from the read buffer.  The
sentinel `None` signals end-of-stream: the loop signals the progress
channel to stop, breaks, and enqueues `None` to the write queue.  A real
frame is run through the interpolation stage (when configured) and each
resulting intermediate frame, and then the frame itself, through
denoise → compression-fix → upscale → optional override-resize before
being enqueued.  `frames_rendered` grows by `ceilInterpolateFactor` once
per input frame, after the `setFramesRendered` calls of that iteration. -/

/-- The fields of `self` that the render loop reads. -/
structure RenderCfg where
  interpolateModel : Bool
  denoiseModel : Bool
  compressionFixModel : Bool
  upscaleModel : Bool
  override_upscale_scale : Option Int
  modelScale : Int
  width : Int
  height : Int
  ceilInterpolateFactor : Nat
deriving DecidableEq

/-- The external stage objects bound to `self`: interpolation yields a
sequence of frames, the 1-to-1 stages yield one frame, and any of them
may raise (`Except.error`).  `resize` stands for `resize_image_bytes`
with its (width, height, target_width, target_height) arguments. -/
structure Stages where
  interpolate : Frame → Bool → Except Unit (List Frame)
  denoise : Frame → Except Unit Frame
  compressionFix : Frame → Except Unit Frame
  upscale : Frame → Except Unit Frame
  sceneDetect : Frame → Bool
  resize : Frame → Int → Int → Int → Int → Frame

/-- Lines 220-223 of `Render.__init__`: when both `self.modelScale` and
`self.override_upscale_scale` are truthy and numerically equal, the
override is reset to a falsy value (modelled as `none`). -/
def overrideAfterInit (modelScale : Int) (ov : Option Int) : Option Int :=
  match ov with
  | Option.none => Option.none
  | Option.some v =>
    if modelScale ≠ 0 ∧ v ≠ 0 then
      if modelScale = v then Option.none else Option.some v
    else Option.some v

/-- Lines 352-357 / 380-385: `if self.override_upscale_scale:` resize the
frame from (width*modelScale, height*modelScale) to
(width*override, height*override); a falsy override skips the resize. -/
def applyOverrideResize (cfg : RenderCfg) (st : Stages) (f : Frame) : Frame :=
  match cfg.override_upscale_scale with
  | Option.some v =>
    if v ≠ 0 then
      st.resize f (cfg.width * cfg.modelScale) (cfg.height * cfg.modelScale)
        (cfg.width * v) (cfg.height * v)
    else f
  | Option.none => f

/-- The 1-to-1 part of the per-frame chain (lines 340-351 / 364-376):
denoise, then compression-fix, then upscale, each applied only when its
model is configured; an exception aborts the chain. -/
def stageChain (cfg : RenderCfg) (st : Stages) (f0 : Frame) : Except Unit Frame :=
  match (if cfg.denoiseModel then st.denoise f0 else Except.ok f0) with
  | Except.error e => Except.error e
  | Except.ok f1 =>
    match (if cfg.compressionFixModel then st.compressionFix f1 else Except.ok f1) with
    | Except.error e => Except.error e
    | Except.ok f2 => if cfg.upscaleModel then st.upscale f2 else Except.ok f2

/-- Full per-frame processing: the stage chain followed by the optional
override-resize (which is only reached when no stage raised). -/
def processChain (cfg : RenderCfg) (st : Stages) (f : Frame) : Except Unit Frame :=
  Except.map (applyOverrideResize cfg st) (stageChain cfg st f)

/-- Outputs of the `for interpolated_frame in interpolated_frames:` loop
(lines 338-360): frames enqueued to the write queue, values passed to
`setFramesRendered`, preview frames, and whether the loop completed
without a stage raising.  Frames processed before a raise stay enqueued. -/
structure InterOut where
  writes : List Frame
  published : List Nat
  previews : List Frame
  ok : Bool
deriving DecidableEq

/-- The interpolated-frames loop body.  Each intermediate frame goes
through the full chain; on success it is recorded as preview, the stale
`frames_rendered` value is published, and the frame is enqueued. -/
def procInterpolated (cfg : RenderCfg) (st : Stages) (n : Nat) : List Frame → InterOut
  | [] => ⟨[], [], [], true⟩
  | g :: gs =>
    match processChain cfg st g with
    | Except.error _ => ⟨[], [], [], false⟩
    | Except.ok g2 =>
      let r := procInterpolated cfg st n gs
      ⟨g2 :: r.writes, n :: r.published, g2 :: r.previews, r.ok⟩

/-- Pause-flag observation made at the top of each loop iteration
(line 324 reads `self.informationHandler.get_is_paused()`). -/
inductive Obs
  | paused
  | running
deriving DecidableEq

/-- How a run of the loop ended: `finished` is the normal end-of-stream
break (line 329) followed by the sentinel enqueue (line 395);
`earlyReturn` is the bare `return` on an empty interpolation result
(line 337); `raised` is a stage exception propagating out of `render`;
`outOfObs` means the modelled schedule ended with the loop still
running. -/
inductive LoopExit
  | finished
  | earlyReturn
  | raised
  | outOfObs
deriving DecidableEq

/-- The two abnormal ways one iteration can end the whole loop. -/
inductive AbortKind
  | raised
  | earlyReturn
deriving DecidableEq

/-- Embeds an abnormal iteration outcome into the loop exits. -/
def AbortKind.toExit : AbortKind → LoopExit
  | AbortKind.raised => LoopExit.raised
  | AbortKind.earlyReturn => LoopExit.earlyReturn

/-- Result of processing one dequeued frame: either the iteration aborts
the loop (with the writes made so far), or it completes with its writes,
published values and previews, after which `frames_rendered` is bumped. -/
inductive IterResult
  | abort (w : List (Option Frame)) (p : List Nat) (pr : List Frame) (e : AbortKind)
  | next (w : List (Option Frame)) (p : List Nat) (pr : List Frame)
deriving DecidableEq

/-- One unpaused iteration of the loop body for a dequeued frame `f`
with current `frames_rendered` value `n` (lines 331-392). -/
def renderIter (cfg : RenderCfg) (st : Stages) (f : Frame) (n : Nat) : IterResult :=
  if cfg.interpolateModel then
    match st.interpolate f (st.sceneDetect f) with
    | Except.error _ => IterResult.abort [] [] [] AbortKind.raised
    | Except.ok [] => IterResult.abort [] [] [] AbortKind.earlyReturn
    | Except.ok (g :: gs) =>
      let r := procInterpolated cfg st n (g :: gs)
      if r.ok then
        match processChain cfg st f with
        | Except.error _ =>
          IterResult.abort (r.writes.map Option.some) r.published r.previews AbortKind.raised
        | Except.ok f2 =>
          IterResult.next (r.writes.map Option.some ++ [Option.some f2])
            (r.published ++ [n]) (r.previews ++ [f2])
      else IterResult.abort (r.writes.map Option.some) r.published r.previews AbortKind.raised
  else
    match processChain cfg st f with
    | Except.error _ => IterResult.abort [] [] [] AbortKind.raised
    | Except.ok f2 => IterResult.next [Option.some f2] [n] [f2]

/-- Accumulated observable behaviour of a run of `Render.render`:
everything enqueued to the write queue (`none` is the sentinel), the
`setFramesRendered` values, the preview frames, whether `stopWriting`
was signalled, the final local `frames_rendered` value, the number of
real frames dequeued from the read buffer, and how the run ended. -/
structure RenderOut where
  writes : List (Option Frame)
  published : List Nat
  previews : List Frame
  stopSignalled : Bool
  framesRendered : Nat
  framesConsumed : Nat
  exit : LoopExit
deriving DecidableEq

/-- The coordinator loop (lines 323-395).  The schedule of pause-flag
observations drives the iterations: a `paused` observation sleeps and
re-checks, consuming no frame; a `running` observation dequeues the next
item.  An empty frame list means the next dequeue yields the sentinel
`None`: the loop signals the progress channel to stop, breaks, and the
sentinel is enqueued to the write queue (line 395).  Abnormal exits skip
line 395 entirely. -/
def renderLoop (cfg : RenderCfg) (st : Stages) :
    List Obs → List Frame → Nat → RenderOut
  | [], _, n => ⟨[], [], [], false, n, 0, LoopExit.outOfObs⟩
  | Obs.paused :: rest, frames, n => renderLoop cfg st rest frames n
  | Obs.running :: rest, frames, n =>
    match frames with
    | [] => ⟨[Option.none], [], [], true, n, 0, LoopExit.finished⟩
    | f :: fs =>
      match renderIter cfg st f n with
      | IterResult.abort w p pr e => ⟨w, p, pr, false, n, 1, AbortKind.toExit e⟩
      | IterResult.next w p pr =>
        let r := renderLoop cfg st rest fs (n + cfg.ceilInterpolateFactor)
        ⟨w ++ r.writes, p ++ r.published, pr ++ r.previews,
         r.stopSignalled, r.framesRendered, 1 + r.framesConsumed, r.exit⟩

/-- A run of `Render.render` starting from `frames_rendered = 0`
(line 313). -/
def render (cfg : RenderCfg) (st : Stages) (obs : List Obs) (frames : List Frame) : RenderOut :=
  renderLoop cfg st obs frames 0

/-! ## Equation lemmas for `renderLoop` -/

/-- A paused observation changes nothing: no dequeue, no writes. -/
theorem renderLoop_paused_step (cfg : RenderCfg) (st : Stages) (rest : List Obs)
    (frames : List Frame) (n : Nat) :
    renderLoop cfg st (Obs.paused :: rest) frames n = renderLoop cfg st rest frames n := rfl

/-- Dequeuing the sentinel: stop is signalled and the sentinel is
enqueued. -/
theorem renderLoop_sentinel (cfg : RenderCfg) (st : Stages) (rest : List Obs) (n : Nat) :
    renderLoop cfg st (Obs.running :: rest) [] n =
      ⟨[Option.none], [], [], true, n, 0, LoopExit.finished⟩ := rfl

/-- Unfolding an unpaused iteration on a real frame. -/
theorem renderLoop_running_cons (cfg : RenderCfg) (st : Stages) (rest : List Obs)
    (f : Frame) (fs : List Frame) (n : Nat) :
    renderLoop cfg st (Obs.running :: rest) (f :: fs) n =
      (match renderIter cfg st f n with
       | IterResult.abort w p pr e => ⟨w, p, pr, false, n, 1, AbortKind.toExit e⟩
       | IterResult.next w p pr =>
         let r := renderLoop cfg st rest fs (n + cfg.ceilInterpolateFactor)
         ⟨w ++ r.writes, p ++ r.published, pr ++ r.previews,
          r.stopSignalled, r.framesRendered, 1 + r.framesConsumed, r.exit⟩) := rfl

/-- An aborting iteration ends the run with that abort's outputs. -/
theorem renderLoop_abort (cfg : RenderCfg) (st : Stages) (rest : List Obs)
    (f : Frame) (fs : List Frame) (n : Nat) (w : List (Option Frame)) (p : List Nat)
    (pr : List Frame) (e : AbortKind)
    (hit : renderIter cfg st f n = IterResult.abort w p pr e) :
    renderLoop cfg st (Obs.running :: rest) (f :: fs) n =
      ⟨w, p, pr, false, n, 1, AbortKind.toExit e⟩ := by
  rw [renderLoop_running_cons, hit]

/-- A completing iteration prepends its outputs and bumps the counter by
`ceilInterpolateFactor` for the rest of the run. -/
theorem renderLoop_next (cfg : RenderCfg) (st : Stages) (rest : List Obs)
    (f : Frame) (fs : List Frame) (n : Nat) (w : List (Option Frame)) (p : List Nat)
    (pr : List Frame)
    (hit : renderIter cfg st f n = IterResult.next w p pr) :
    renderLoop cfg st (Obs.running :: rest) (f :: fs) n =
      ⟨w ++ (renderLoop cfg st rest fs (n + cfg.ceilInterpolateFactor)).writes,
       p ++ (renderLoop cfg st rest fs (n + cfg.ceilInterpolateFactor)).published,
       pr ++ (renderLoop cfg st rest fs (n + cfg.ceilInterpolateFactor)).previews,
       (renderLoop cfg st rest fs (n + cfg.ceilInterpolateFactor)).stopSignalled,
       (renderLoop cfg st rest fs (n + cfg.ceilInterpolateFactor)).framesRendered,
       1 + (renderLoop cfg st rest fs (n + cfg.ceilInterpolateFactor)).framesConsumed,
       (renderLoop cfg st rest fs (n + cfg.ceilInterpolateFactor)).exit⟩ := by
  rw [renderLoop_running_cons, hit]

/-! ## C1: total output frame count -/

/-- C1: for every input frame count F and interpolation factor I ≥ 1 the
constructor computes `ceilInterpolateFactor = ⌈I⌉` and
`totalOutputFrames = F * ⌈I⌉`, once at setup (the fields are never
reassigned after lines 117 and 159 of the source). -/
theorem c1_total_output_frames (F : Nat) (I : ℚ) (hI : 1 ≤ I) :
    (setupGeometry F I).totalOutputFrames = (F : Int) * ⌈I⌉ ∧
    (setupGeometry F I).ceilInterpolateFactor = ⌈I⌉ :=
  ⟨rfl, rfl⟩

/-- Witness for C1 at F = 10, I = 3/2. -/
theorem c1_total_output_frames_witness :
    (1 : ℚ) ≤ 3 / 2 ∧
    ((setupGeometry 10 (3 / 2)).totalOutputFrames = (10 : Int) * ⌈(3 / 2 : ℚ)⌉ ∧
     (setupGeometry 10 (3 / 2)).ceilInterpolateFactor = ⌈(3 / 2 : ℚ)⌉) :=
  ⟨by norm_num, c1_total_output_frames 10 (3 / 2) (by norm_num)⟩

/-! ## C9: stage construction order -/

/-- C9: for any configuration, the stage lifecycle during setup is:
construct-and-unload upscale, construct-and-unload denoise,
construct-and-unload compression-fix, construct interpolate (left
loaded), then reload upscale, denoise, compression-fix in that order,
each step present exactly when the stage is configured. -/
theorem c9_construction_order (c : InitCfg) :
    lifecycleOf (renderInitEvents c).1 =
      (if c.upscaleModel then
        [LifeEv.construct StageKind.upscale, LifeEv.unload StageKind.upscale] else []) ++
      (if c.denoiseModel then
        [LifeEv.construct StageKind.denoise, LifeEv.unload StageKind.denoise] else []) ++
      (if c.compressionFixModel then
        [LifeEv.construct StageKind.compressionFix, LifeEv.unload StageKind.compressionFix] else []) ++
      (if c.interpolateModel then [LifeEv.construct StageKind.interpolate] else []) ++
      (if c.upscaleModel then [LifeEv.reload StageKind.upscale] else []) ++
      (if c.denoiseModel then [LifeEv.reload StageKind.denoise] else []) ++
      (if c.compressionFixModel then [LifeEv.reload StageKind.compressionFix] else []) := by
  rcases c with ⟨b, u, d, cf, i, v⟩
  cases b <;> cases u <;> cases d <;> cases cf <;> cases i <;> cases v <;> decide

/-! ## C2: tensorrt fallback for denoise / compression-fix -/

/-- Configuration refuting C2 as stated: tensorrt backend with upscale,
denoise and interpolate models configured. -/
def c2cfg : InitCfg := ⟨Backend.tensorrt, true, true, false, true, true⟩

/-- C2 counterexample: with the tensorrt family selected and a denoise
stage requested, the interpolate stage is constructed against pytorch,
not against the originally selected tensorrt family — the downgrade at
line 195 permanently reassigns `self.backend` before `setupInterpolate`
runs. -/
theorem c2_interpolate_downgraded :
    InitEv.construct StageKind.interpolate Backend.pytorch ∈ (renderInitEvents c2cfg).1 ∧
    InitEv.construct StageKind.interpolate Backend.tensorrt ∉ (renderInitEvents c2cfg).1 := by
  decide

/-- C2 (amended): with the tensorrt family selected and a denoise or
compression-fix stage requested, each requested such stage is
constructed against pytorch, with exactly one warning and no error; the
upscale stage (constructed before the downgrade) keeps tensorrt, but the
interpolate stage (constructed after the downgrade) is also built
against pytorch. -/
theorem c2_stage_fallback (u d cf i v : Bool) (hreq : d = true ∨ cf = true) :
    constructedWith (renderInitEvents ⟨Backend.tensorrt, u, d, cf, i, v⟩).1 StageKind.denoise =
      (if d then Option.some Backend.pytorch else Option.none) ∧
    constructedWith (renderInitEvents ⟨Backend.tensorrt, u, d, cf, i, v⟩).1 StageKind.compressionFix =
      (if cf then Option.some Backend.pytorch else Option.none) ∧
    warnCount (renderInitEvents ⟨Backend.tensorrt, u, d, cf, i, v⟩).1 = 1 ∧
    constructedWith (renderInitEvents ⟨Backend.tensorrt, u, d, cf, i, v⟩).1 StageKind.upscale =
      (if u then Option.some Backend.tensorrt else Option.none) ∧
    constructedWith (renderInitEvents ⟨Backend.tensorrt, u, d, cf, i, v⟩).1 StageKind.interpolate =
      (if i then Option.some Backend.pytorch else Option.none) := by
  rcases hreq with h | h
  · subst h; cases cf <;> cases u <;> cases i <;> cases v <;> decide
  · subst h; cases d <;> cases u <;> cases i <;> cases v <;> decide

/-- Witness for C2 (amended) at the compression-fix-only configuration:
tensorrt with upscale, compression-fix and interpolate models but no
denoise model. -/
theorem c2_stage_fallback_witness :
    ((false : Bool) = true ∨ (true : Bool) = true) ∧
    (constructedWith (renderInitEvents ⟨Backend.tensorrt, true, false, true, true, true⟩).1 StageKind.denoise =
       (if false then Option.some Backend.pytorch else Option.none) ∧
     constructedWith (renderInitEvents ⟨Backend.tensorrt, true, false, true, true, true⟩).1 StageKind.compressionFix =
       (if true then Option.some Backend.pytorch else Option.none) ∧
     warnCount (renderInitEvents ⟨Backend.tensorrt, true, false, true, true, true⟩).1 = 1 ∧
     constructedWith (renderInitEvents ⟨Backend.tensorrt, true, false, true, true, true⟩).1 StageKind.upscale =
       (if true then Option.some Backend.tensorrt else Option.none) ∧
     constructedWith (renderInitEvents ⟨Backend.tensorrt, true, false, true, true, true⟩).1 StageKind.interpolate =
       (if true then Option.some Backend.pytorch else Option.none)) :=
  ⟨Or.inr rfl, c2_stage_fallback true false true true true (Or.inr rfl)⟩

/-! ## C4: invalid input handling -/

/-- Configuration refuting C4 as stated: the probe reports an invalid
video. -/
def c4cfg : InitCfg := ⟨Backend.pytorch, false, false, false, false, false⟩

/-- C4 counterexample: when the probe reports an invalid video, setup
only logs a notice, raises no InvalidMedia failure, and still starts the
render thread (lines 145-146 and 293-296). -/
theorem c4_threads_start_despite_invalid :
    InitEv.logInvalid ∈ (renderInitEvents c4cfg).1 ∧
    InitEv.raiseInvalidMedia ∉ (renderInitEvents c4cfg).1 ∧
    InitEv.startThread ThreadKind.render ∈ (renderInitEvents c4cfg).1 := by
  decide

/-- C4 (amended): for every configuration, an invalid input is only
logged (the notice appears exactly when the probe flag is false), no
InvalidMedia failure is ever raised, and all four pipeline threads are
started regardless. -/
theorem c4_invalid_input_only_logged (c : InitCfg) :
    (InitEv.logInvalid ∈ (renderInitEvents c).1 ↔ c.is_valid_video = false) ∧
    InitEv.raiseInvalidMedia ∉ (renderInitEvents c).1 ∧
    InitEv.startThread ThreadKind.sharedMemory ∈ (renderInitEvents c).1 ∧
    InitEv.startThread ThreadKind.ffmpegRead ∈ (renderInitEvents c).1 ∧
    InitEv.startThread ThreadKind.ffmpegWrite ∈ (renderInitEvents c).1 ∧
    InitEv.startThread ThreadKind.render ∈ (renderInitEvents c).1 := by
  rcases c with ⟨b, u, d, cf, i, v⟩
  cases b <;> cases u <;> cases d <;> cases cf <;> cases i <;> cases v <;> decide

/-! ## C8: cooperative pause -/

/-- C8: while the pause flag reads true the coordinator dequeues no
frame, applies no stage and enqueues nothing — any stretch of paused
observations leaves the run unchanged, and dequeuing resumes with the
first clear observation. -/
theorem c8_paused_iterations_noop (cfg : RenderCfg) (st : Stages) (k : Nat)
    (rest : List Obs) (frames : List Frame) (n : Nat) :
    renderLoop cfg st (List.replicate k Obs.paused ++ rest) frames n =
      renderLoop cfg st rest frames n := by
  induction k with
  | zero => rfl
  | succ m ih => rw [List.replicate_succ, List.cons_append, renderLoop_paused_step, ih]

/-! ## C10: empty interpolation result -/

/-- C10: if the interpolate stage returns an empty sequence for the
dequeued frame, the loop returns at once: nothing is enqueued for that
frame, no sentinel is pushed, the progress channel is not signalled to
stop, and the counter is unchanged (lines 336-337 skip line 395). -/
theorem c10_empty_interpolation_early_return (cfg : RenderCfg) (st : Stages) (f : Frame)
    (fs : List Frame) (rest : List Obs) (n : Nat)
    (hi : cfg.interpolateModel = true)
    (he : st.interpolate f (st.sceneDetect f) = Except.ok []) :
    renderLoop cfg st (Obs.running :: rest) (f :: fs) n =
      ⟨[], [], [], false, n, 1, LoopExit.earlyReturn⟩ := by
  have hit : renderIter cfg st f n = IterResult.abort [] [] [] AbortKind.earlyReturn := by
    simp [renderIter, hi, he]
  rw [renderLoop_abort cfg st rest f fs n [] [] [] AbortKind.earlyReturn hit]
  rfl

/-- Concrete configuration for the C10 witness: interpolation configured,
no other stage. -/
def cfg10w : RenderCfg := ⟨true, false, false, false, Option.none, 1, 2, 2, 2⟩

/-- Stage set for the C10 witness: the interpolate stage yields an empty
sequence. -/
def st10w : Stages :=
  ⟨fun _ _ => Except.ok [], fun f => Except.ok f, fun f => Except.ok f,
   fun f => Except.ok f, fun _ => false, fun f _ _ _ _ => f⟩

/-- Witness for C10 on a one-frame stream. -/
theorem c10_empty_interpolation_early_return_witness :
    cfg10w.interpolateModel = true ∧
    st10w.interpolate [0] (st10w.sceneDetect [0]) = Except.ok [] ∧
    renderLoop cfg10w st10w [Obs.running] [[0]] 0 =
      ⟨[], [], [], false, 0, 1, LoopExit.earlyReturn⟩ :=
  ⟨rfl, rfl, c10_empty_interpolation_early_return cfg10w st10w [0] [] [] 0 rfl rfl⟩

/-! ## C3: sentinel on a mid-stream stage exception -/

/-- Configuration for the C3 failing run: denoise configured, nothing
else. -/
def cfg3 : RenderCfg := ⟨false, true, false, false, Option.none, 1, 2, 2, 1⟩

/-- Stage set whose denoise invocation raises on every frame. -/
def st3 : Stages :=
  ⟨fun f _ => Except.ok [f], fun _ => Except.error (), fun f => Except.ok f,
   fun f => Except.ok f, fun _ => false, fun f _ _ _ _ => f⟩

/-- The C3 failing run: a two-frame stream whose first denoise call
raises. -/
def out3 : RenderOut :=
  render cfg3 st3 [Obs.running, Obs.running] [List.replicate 12 0, List.replicate 12 1]

/-- C3: evaluation at the failing input.  The stage exception propagates
out of `render` (there is no try/finally around the loop), and the
sentinel is never enqueued to the write queue — contrary to the claim
that every terminating run still delivers the sentinel to FrameSink. -/
theorem c3_no_sentinel_on_raise :
    out3.exit = LoopExit.raised ∧ Option.none ∉ out3.writes ∧ out3.stopSignalled = false := by
  decide

/-! ## C5: the 10-frame end-to-end scenario -/

/-- Scenario configuration of C5: interpolation ×2 on a 2×2 input, no
other stage, no override. -/
def cfg5 : RenderCfg := ⟨true, false, false, false, Option.none, 1, 2, 2, 2⟩

/-- Scenario stages of C5: the interpolate stage yields one intermediate
frame per input frame, no scene cuts. -/
def st5 : Stages :=
  ⟨fun f _ => Except.ok [f], fun f => Except.ok f, fun f => Except.ok f,
   fun f => Except.ok f, fun _ => false, fun f _ _ _ _ => f⟩

/-- The ten 2×2×3-byte synthetic input frames. -/
def frames10 : List Frame := (List.range 10).map fun k => List.replicate 12 k

/-- Pause flag never set: eleven unpaused iterations (ten frames plus
the sentinel dequeue). -/
def obs11 : List Obs := List.replicate 11 Obs.running

/-- The C5 scenario run. -/
def out5 : RenderOut := render cfg5 st5 obs11 frames10

/-- C5 counterexample: the `framesRendered` value published to the
progress channel ends at 18, not 20 — `setFramesRendered` is always
called with the pre-increment counter value (lines 359, 388 precede the
increment at line 392). -/
theorem c5_published_ends_at_18 :
    out5.published.getLast? ≠ Option.some 20 ∧ out5.published.getLast? = Option.some 18 := by
  decide

/-- C5 (amended): the scenario emits 20 frames followed by exactly one
sentinel, the sentinel is the last enqueued item, the local counter ends
at 20 and the run terminates normally — but the last value published to
the progress channel is 18. -/
theorem c5_end_to_end :
    out5.writes.length = 21 ∧
    (out5.writes.filter Option.isNone).length = 1 ∧
    out5.writes.getLast? = Option.some Option.none ∧
    out5.framesRendered = 20 ∧
    out5.framesConsumed = 10 ∧
    out5.published.getLast? = Option.some 18 ∧
    out5.exit = LoopExit.finished := by
  decide

/-! ## C7: progress counter pacing -/

/-- C7 (amended): on every run that terminates normally at end-of-stream
or is still in progress when the observation schedule ends, the local
`frames_rendered` counter equals its start value plus
`ceilInterpolateFactor` times the number of input frames consumed — the
increment happens once per input frame, independent of how many
intermediate frames the interpolation produced.  (A frame whose
interpolation yields an empty sequence, or during whose processing a
stage raises, is consumed without the increment; see the
counterexample.) -/
theorem c7_frames_rendered_paced (cfg : RenderCfg) (st : Stages) :
    ∀ (obs : List Obs) (frames : List Frame) (n : Nat),
      (renderLoop cfg st obs frames n).exit = LoopExit.finished ∨
      (renderLoop cfg st obs frames n).exit = LoopExit.outOfObs →
      (renderLoop cfg st obs frames n).framesRendered =
        n + cfg.ceilInterpolateFactor * (renderLoop cfg st obs frames n).framesConsumed := by
  intro obs
  induction obs with
  | nil => intro frames n _; simp [renderLoop]
  | cons o rest ih =>
    intro frames n h
    cases o with
    | paused =>
      rw [renderLoop_paused_step] at h ⊢
      exact ih frames n h
    | running =>
      cases frames with
      | nil => simp [renderLoop_sentinel]
      | cons f fs =>
        cases hit : renderIter cfg st f n with
        | abort w p pr e =>
          rw [renderLoop_abort cfg st rest f fs n w p pr e hit] at h
          cases e <;> simp [AbortKind.toExit] at h
        | next w p pr =>
          rw [renderLoop_next cfg st rest f fs n w p pr hit] at h ⊢
          dsimp only at h ⊢
          have h2 := ih fs (n + cfg.ceilInterpolateFactor) h
          rw [h2, Nat.mul_add, Nat.mul_one]
          exact Nat.add_assoc n cfg.ceilInterpolateFactor
            (cfg.ceilInterpolateFactor *
              (renderLoop cfg st rest fs (n + cfg.ceilInterpolateFactor)).framesConsumed)

/-- Configuration for the C7 witness: no stages, factor 2. -/
def cfg7w : RenderCfg := ⟨false, false, false, false, Option.none, 1, 2, 2, 2⟩

/-- Stage set for the C7 witness (identity stages, never invoked). -/
def st7w : Stages :=
  ⟨fun f _ => Except.ok [f], fun f => Except.ok f, fun f => Except.ok f,
   fun f => Except.ok f, fun _ => false, fun f _ _ _ _ => f⟩

/-- Witness for C7 on a two-frame stream reaching the sentinel. -/
theorem c7_frames_rendered_paced_witness :
    ((renderLoop cfg7w st7w [Obs.running, Obs.running, Obs.running] [[0], [1]] 0).exit =
        LoopExit.finished ∨
     (renderLoop cfg7w st7w [Obs.running, Obs.running, Obs.running] [[0], [1]] 0).exit =
        LoopExit.outOfObs) ∧
    (renderLoop cfg7w st7w [Obs.running, Obs.running, Obs.running] [[0], [1]] 0).framesRendered =
      0 + cfg7w.ceilInterpolateFactor *
        (renderLoop cfg7w st7w [Obs.running, Obs.running, Obs.running] [[0], [1]] 0).framesConsumed :=
  ⟨Or.inl (by decide),
   c7_frames_rendered_paced cfg7w st7w [Obs.running, Obs.running, Obs.running] [[0], [1]] 0
     (Or.inl (by decide))⟩

/-- Configuration refuting C7 as stated: interpolation configured with
factor 2. -/
def cfg7c : RenderCfg := ⟨true, false, false, false, Option.none, 1, 2, 2, 2⟩

/-- Stage set refuting C7 as stated: the interpolation produces zero
intermediate frames. -/
def st7c : Stages :=
  ⟨fun _ _ => Except.ok [], fun f => Except.ok f, fun f => Except.ok f,
   fun f => Except.ok f, fun _ => false, fun f _ _ _ _ => f⟩

/-- The C7 refuting run: one input frame is consumed. -/
def out7 : RenderOut := render cfg7c st7c [Obs.running] [[0]]

/-- C7 counterexample: an input frame for which the interpolation stage
produced zero intermediate frames is consumed from the source, yet the
counter does not increase by `ceilInterpolateFactor` — the early return
at line 337 precedes the increment at line 392. -/
theorem c7_zero_intermediates_no_increment :
    out7.framesConsumed = 1 ∧ out7.framesRendered = 0 ∧
    out7.framesRendered ≠ cfg7c.ceilInterpolateFactor * out7.framesConsumed := by
  decide

/-! ## C6: override-resize rule -/

/-- The same render configuration with the override cleared; the
pre-resize stage output of a frame is `processChain` under this
configuration. -/
def noResizeCfg (cfg : RenderCfg) : RenderCfg :=
  ⟨cfg.interpolateModel, cfg.denoiseModel, cfg.compressionFixModel, cfg.upscaleModel,
   Option.none, cfg.modelScale, cfg.width, cfg.height, cfg.ceilInterpolateFactor⟩

/-- The 1-to-1 stage chain never reads the override field. -/
theorem stageChain_noResize (cfg : RenderCfg) (st : Stages) (f : Frame) :
    stageChain (noResizeCfg cfg) st f = stageChain cfg st f := rfl

/-- Without an override the full per-frame processing is exactly the
stage chain. -/
theorem processChain_noResize (cfg : RenderCfg) (st : Stages) (f : Frame) :
    processChain (noResizeCfg cfg) st f = stageChain cfg st f := by
  unfold processChain
  rw [stageChain_noResize]
  cases stageChain cfg st f <;> rfl

/-- C6: for every processed frame, with an override scale `v ≥ 1`
configured before the line 220-223 adjustment and a model scale ≥ 1: if
`v` differs from the model scale, the frame is resized from
(width·modelScale, height·modelScale) to (width·v, height·v) after the
stage chain; if `v` equals the model scale, the override is cleared at
setup, no resize occurs, and the output bytes equal the pre-resize stage
output exactly. -/
theorem c6_override_resize (cfg : RenderCfg) (st : Stages) (f : Frame) (v : Int)
    (hms : 1 ≤ cfg.modelScale) (hv : 1 ≤ v)
    (hov : cfg.override_upscale_scale = overrideAfterInit cfg.modelScale (Option.some v)) :
    (v = cfg.modelScale → processChain cfg st f = processChain (noResizeCfg cfg) st f) ∧
    (v ≠ cfg.modelScale →
      processChain cfg st f =
        Except.map
          (fun g => st.resize g (cfg.width * cfg.modelScale) (cfg.height * cfg.modelScale)
            (cfg.width * v) (cfg.height * v))
          (processChain (noResizeCfg cfg) st f)) := by
  have hmsne : cfg.modelScale ≠ 0 := by omega
  have hvne : v ≠ 0 := by omega
  constructor
  · intro hev
    have h0 : cfg.override_upscale_scale = Option.none := by
      rw [hov]; simp [overrideAfterInit, hmsne, hvne, hev.symm]
    rw [processChain_noResize]
    unfold processChain
    have h2 : applyOverrideResize cfg st = fun g => g := by
      funext g; simp [applyOverrideResize, h0]
    rw [h2]
    cases stageChain cfg st f <;> rfl
  · intro hne
    have h0 : cfg.override_upscale_scale = Option.some v := by
      rw [hov]; simp [overrideAfterInit, hmsne, hvne, Ne.symm hne]
    rw [processChain_noResize]
    unfold processChain
    have h2 : applyOverrideResize cfg st = fun g =>
        st.resize g (cfg.width * cfg.modelScale) (cfg.height * cfg.modelScale)
          (cfg.width * v) (cfg.height * v) := by
      funext g; simp [applyOverrideResize, h0, hvne]
    rw [h2]

/-- Configuration for the C6 witness: upscale with model scale 2 and an
override of 3 on a 4×3 input. -/
def cfg6w : RenderCfg := ⟨false, false, false, true, Option.some 3, 2, 4, 3, 1⟩

/-- Stage set for the C6 witness, with a resize whose effect on the
bytes is visible. -/
def st6w : Stages :=
  ⟨fun f _ => Except.ok [f], fun f => Except.ok f, fun f => Except.ok f,
   fun f => Except.ok f, fun _ => false, fun f _ _ _ _ => 0 :: f⟩

/-- Witness for C6 at model scale 2, override 3, frame [5]. -/
theorem c6_override_resize_witness :
    1 ≤ cfg6w.modelScale ∧ 1 ≤ (3 : Int) ∧
    cfg6w.override_upscale_scale = overrideAfterInit cfg6w.modelScale (Option.some 3) ∧
    (((3 : Int) = cfg6w.modelScale →
        processChain cfg6w st6w [5] = processChain (noResizeCfg cfg6w) st6w [5]) ∧
     ((3 : Int) ≠ cfg6w.modelScale →
        processChain cfg6w st6w [5] =
          Except.map
            (fun g => st6w.resize g (cfg6w.width * cfg6w.modelScale)
              (cfg6w.height * cfg6w.modelScale) (cfg6w.width * 3) (cfg6w.height * 3))
            (processChain (noResizeCfg cfg6w) st6w [5]))) :=
  ⟨by decide, by decide, by decide,
   c6_override_resize cfg6w st6w [5] 3 (by decide) (by decide) (by decide)⟩
